import Mathlib

/-!
Verification development for the MCP client / Zapier bridge subsystem
(`core/mcp/client.py`, `core/mcp/security.py`, `core/mcp/zapier_integration.py`,
`core/mcp/exceptions.py`).

The Python code is shallowly embedded: Python dicts become association lists
with Python-dict semantics (first-position, last-value-wins on duplicate
insertion), JSON payloads become an inductive `Json` type, `json.loads`
becomes an executable parser, exceptions become an `Except PyExc` outcome,
and the async transport's responses become explicit inputs to the embedded
operations (the transport module itself performs I/O; its response values
are universally quantified here).
-/

/-- JSON values as produced by Python's `json.loads`.  Numbers keep their
source lexeme: the scanner under verification only ever consults a number's
truthiness (zero / non-zero) and its textual rendering, both of which are
functions of the lexeme. -/
inductive Json where
  | null : Json
  | bool (b : Bool) : Json
  | num (lex : String) : Json
  | str (s : String) : Json
  | arr (elems : List Json) : Json
  | obj (fields : List (String × Json)) : Json
deriving Repr

/-- `True` iff the numeric literal denotes a non-zero number: some digit of
the mantissa (the part before any exponent marker) is non-zero.  An exponent
cannot turn a zero mantissa non-zero or vice versa. -/
def numLexemeNonzero (lex : String) : Bool :=
  (lex.toList.takeWhile (fun c => c ≠ 'e' ∧ c ≠ 'E')).any
    (fun c => c.isDigit ∧ c ≠ '0')

/-- Python truthiness (`bool(x)`) of a JSON value: `None`, `False`, zero,
empty string, empty list and empty dict are falsy. -/
def Json.truthy : Json → Bool
  | .null => false
  | .bool b => b
  | .num lex => numLexemeNonzero lex
  | .str s => ¬ s.isEmpty
  | .arr xs => ¬ xs.isEmpty
  | .obj kvs => ¬ kvs.isEmpty

/-- `x is None` for an optional dict entry that is present. -/
def isNullOpt (v : Option Json) : Bool :=
  match v with
  | some Json.null => true
  | _ => false

/-- Truthiness of a Python expression that may be `None` (`Option`). -/
def truthyOpt (v : Option Json) : Bool :=
  match v with
  | none => false
  | some j => j.truthy

/-- Python `d.get(k)` on a dict.  Dicts built through `dictSet` (and by the
JSON parser) have unique keys, so the first match is the only match. -/
def pyGet (kvs : List (String × Json)) (k : String) : Option Json :=
  (kvs.find? (fun p => p.1 == k)).map (fun p => p.2)

/-- Python `k in d` on a dict. -/
def hasKey (kvs : List (String × Json)) (k : String) : Bool :=
  kvs.any (fun p => p.1 == k)

/-- Python `d[k] = v` on a dict: updates the value in place when the key is
present (keeping its position), appends otherwise. -/
def dictSet {α : Type} (m : List (String × α)) (k : String) (v : α) :
    List (String × α) :=
  if m.any (fun p => p.1 == k) then
    m.map (fun p => if p.1 == k then (k, v) else p)
  else m ++ [(k, v)]

/-- Lookup in a generic string-keyed dict (first occurrence). -/
def dictGet {α : Type} (m : List (String × α)) (k : String) : Option α :=
  (m.find? (fun p => p.1 == k)).map (fun p => p.2)

/-- `True` iff the first list is an initial segment of the second. -/
def listStartsWith : List Char → List Char → Bool
  | [], _ => true
  | _ :: _, [] => false
  | p :: ps, c :: cs => p == c && listStartsWith ps cs

/-- `True` iff `pat` occurs as a contiguous sublist of `s`. -/
def listHasInfix (pat : List Char) : List Char → Bool
  | [] => pat.isEmpty
  | c :: rest => listStartsWith pat (c :: rest) || listHasInfix pat rest

/-- Python substring test `pat in s`. -/
def strContains (s pat : String) : Bool :=
  listHasInfix pat.toList s.toList

/-- ASCII lower-casing of one character.  Python's `str.lower()` performs
full Unicode case mapping; every key and tool name the code lower-cases is
ASCII, which this models exactly. -/
def charLower (c : Char) : Char :=
  if c = 'A' then 'a' else if c = 'B' then 'b' else if c = 'C' then 'c'
  else if c = 'D' then 'd' else if c = 'E' then 'e' else if c = 'F' then 'f'
  else if c = 'G' then 'g' else if c = 'H' then 'h' else if c = 'I' then 'i'
  else if c = 'J' then 'j' else if c = 'K' then 'k' else if c = 'L' then 'l'
  else if c = 'M' then 'm' else if c = 'N' then 'n' else if c = 'O' then 'o'
  else if c = 'P' then 'p' else if c = 'Q' then 'q' else if c = 'R' then 'r'
  else if c = 'S' then 's' else if c = 'T' then 't' else if c = 'U' then 'u'
  else if c = 'V' then 'v' else if c = 'W' then 'w' else if c = 'X' then 'x'
  else if c = 'Y' then 'y' else if c = 'Z' then 'z' else c

/-- Python `s.lower()`. -/
def pyLower (s : String) : String :=
  String.mk (s.toList.map charLower)

/-- A single-quote character, used by Python's `repr`. -/
def squote : String := "\x27"

/-- Python `repr` of a JSON value, as far as the code under verification can
observe it (it is only ever scanned for the substrings `"?"` and
`"Question:"`).  Float canonicalisation and string-escape rendering are not
modelled: neither can introduce or remove a `?` or a `Question:` substring
relative to this rendering for the payload shapes the scanner handles. -/
def pyRepr : Json → String
  | .null => "None"
  | .bool true => "True"
  | .bool false => "False"
  | .num lex => lex
  | .str s => squote ++ s ++ squote
  | .arr xs =>
      "[" ++ String.intercalate ", " (xs.attach.map (fun ⟨x, _⟩ => pyRepr x)) ++ "]"
  | .obj kvs =>
      "\x7b" ++
        String.intercalate ", "
          (kvs.attach.map (fun ⟨(k, v), _⟩ => squote ++ k ++ squote ++ ": " ++ pyRepr v)) ++
      "\x7d"
decreasing_by
  · rename_i h; have := List.sizeOf_lt_of_mem h; simp at this ⊢; omega
  · rename_i h; have := List.sizeOf_lt_of_mem h; simp at this ⊢; omega

/-- Python `str` of a JSON value (`str` of a string is the string itself,
otherwise it coincides with `repr`). -/
def pyStr : Json → String
  | .str s => s
  | v => pyRepr v

/-! ### `json.loads`

An executable model of Python's strict JSON decoder, used by
`_extract_zapier_error_or_question`.  `none` plays the role of
`json.JSONDecodeError`.  Lone `\uXXXX` surrogate escapes (which Python keeps
as unpaired surrogate code units) fall outside Lean's `Char` and are mapped
to `U+0000`; no payload under verification contains them. -/

/-- Skip JSON whitespace. -/
def skipWs : List Char → List Char
  | c :: rest =>
      if c = ' ' ∨ c = '\t' ∨ c = '\n' ∨ c = '\r' then skipWs rest else c :: rest
  | [] => []

/-- Hex digit value. -/
def hexVal (c : Char) : Option Nat :=
  if '0' ≤ c ∧ c ≤ '9' then some (c.toNat - '0'.toNat)
  else if 'a' ≤ c ∧ c ≤ 'f' then some (c.toNat - 'a'.toNat + 10)
  else if 'A' ≤ c ∧ c ≤ 'F' then some (c.toNat - 'A'.toNat + 10)
  else none

/-- Parse exactly four hex digits. -/
def parseHex4 (cs : List Char) : Option (Nat × List Char) :=
  match cs with
  | a :: b :: c :: d :: rest =>
      match hexVal a, hexVal b, hexVal c, hexVal d with
      | some va, some vb, some vc, some vd =>
          some (va * 4096 + vb * 256 + vc * 16 + vd, rest)
      | _, _, _, _ => none
  | _ => none

/-- Parse the body of a JSON string (the opening quote already consumed). -/
def parseStringBody (fuel : Nat) (cs : List Char) (acc : List Char) :
    Option (String × List Char) :=
  match fuel, cs with
  | 0, _ => none
  | _, [] => none
  | f + 1, c :: rest =>
      if c = '"' then some (String.mk acc.reverse, rest)
      else if c = '\\' then
        match rest with
        | [] => none
        | e :: rest2 =>
            if e = '"' then parseStringBody f rest2 ('"' :: acc)
            else if e = '\\' then parseStringBody f rest2 ('\\' :: acc)
            else if e = '/' then parseStringBody f rest2 ('/' :: acc)
            else if e = 'b' then parseStringBody f rest2 ('\x08' :: acc)
            else if e = 'f' then parseStringBody f rest2 ('\x0c' :: acc)
            else if e = 'n' then parseStringBody f rest2 ('\n' :: acc)
            else if e = 'r' then parseStringBody f rest2 ('\r' :: acc)
            else if e = 't' then parseStringBody f rest2 ('\t' :: acc)
            else if e = 'u' then
              match parseHex4 rest2 with
              | some (n, rest3) => parseStringBody f rest3 (Char.ofNat n :: acc)
              | none => none
            else none
      else if c.toNat < 32 then none
      else parseStringBody f rest (c :: acc)

/-- Parse a JSON number lexeme (`-?int frac? exp?`), returning it verbatim. -/
def parseNumberLexeme (cs : List Char) : Option (String × List Char) :=
  let (sign, cs1) :=
    match cs with
    | '-' :: rest => (['-'], rest)
    | _ => (([] : List Char), cs)
  match cs1 with
  | [] => none
  | c :: _ =>
      if ¬ c.isDigit then none
      else
        let intPart := cs1.takeWhile Char.isDigit
        let cs2 := cs1.dropWhile Char.isDigit
        if c = '0' ∧ intPart.length > 1 then none
        else
          let (fracPart, cs3) :=
            match cs2 with
            | '.' :: rest =>
                let ds := rest.takeWhile Char.isDigit
                if ds.isEmpty then ([], cs2)
                else ('.' :: ds, rest.dropWhile Char.isDigit)
            | _ => ([], cs2)
          if cs3 ≠ cs2 ∨ fracPart.isEmpty then
            match cs2, fracPart with
            | '.' :: _, [] => none
            | _, _ =>
              let (expPart, cs4) :=
                match cs3 with
                | e :: rest =>
                    if e = 'e' ∨ e = 'E' then
                      let (es, rest2) :=
                        match rest with
                        | s :: r2 => if s = '+' ∨ s = '-' then ([s], r2) else ([], rest)
                        | [] => ([], rest)
                      let ds := rest2.takeWhile Char.isDigit
                      if ds.isEmpty then ([], cs3)
                      else (e :: (es ++ ds), rest2.dropWhile Char.isDigit)
                    else ([], cs3)
                | [] => ([], cs3)
              match cs3, expPart with
              | e :: _, [] =>
                  if e = 'e' ∨ e = 'E' then none
                  else some (String.mk (sign ++ intPart ++ fracPart), cs3)
              | _, _ =>
                  some (String.mk (sign ++ intPart ++ fracPart ++ expPart), cs4)
          else none

mutual

/-- Parse one JSON value. -/
def parseVal (fuel : Nat) (cs : List Char) : Option (Json × List Char) :=
  match fuel with
  | 0 => none
  | f + 1 =>
      match skipWs cs with
      | [] => none
      | c :: rest =>
          if c = '"' then
            match parseStringBody f rest [] with
            | some (s, r) => some (Json.str s, r)
            | none => none
          else if c = '\x7b' then parseObjBody f (skipWs rest) []
          else if c = '[' then parseArrBody f (skipWs rest) []
          else
            match c :: rest with
            | 't' :: 'r' :: 'u' :: 'e' :: r => some (Json.bool true, r)
            | 'f' :: 'a' :: 'l' :: 's' :: 'e' :: r => some (Json.bool false, r)
            | 'n' :: 'u' :: 'l' :: 'l' :: r => some (Json.null, r)
            | cs2 =>
                match parseNumberLexeme cs2 with
                | some (lex, r) => some (Json.num lex, r)
                | none => none

/-- Parse the members of a JSON object (opening brace consumed, leading
whitespace skipped); duplicate keys follow Python dict semantics. -/
def parseObjBody (fuel : Nat) (cs : List Char) (acc : List (String × Json)) :
    Option (Json × List Char) :=
  match fuel with
  | 0 => none
  | f + 1 =>
      match cs, acc with
      | '\x7d' :: rest, [] => some (Json.obj [], rest)
      | _, _ =>
          match cs with
          | '"' :: rest =>
              match parseStringBody f rest [] with
              | none => none
              | some (k, r1) =>
                  match skipWs r1 with
                  | ':' :: r2 =>
                      match parseVal f r2 with
                      | none => none
                      | some (v, r3) =>
                          let acc2 := dictSet acc k v
                          match skipWs r3 with
                          | ',' :: r4 => parseObjBody f (skipWs r4) acc2
                          | '\x7d' :: r4 => some (Json.obj acc2, r4)
                          | _ => none
                  | _ => none
          | _ => none

/-- Parse the elements of a JSON array (opening bracket consumed, leading
whitespace skipped). -/
def parseArrBody (fuel : Nat) (cs : List Char) (acc : List Json) :
    Option (Json × List Char) :=
  match fuel with
  | 0 => none
  | f + 1 =>
      match cs, acc with
      | ']' :: rest, [] => some (Json.arr [], rest)
      | _, _ =>
          match parseVal f cs with
          | none => none
          | some (v, r1) =>
              match skipWs r1 with
              | ',' :: r2 => parseArrBody f (skipWs r2) (acc ++ [v])
              | ']' :: r2 => some (Json.arr (acc ++ [v]), r2)
              | _ => none

end

/-- Python `json.loads` on a string: one JSON value followed only by
whitespace; `none` is `json.JSONDecodeError`. -/
def jsonLoads (s : String) : Option Json :=
  match parseVal (s.length + 8) s.toList with
  | some (v, rest) => if skipWs rest = [] then some v else none
  | none => none

/-! ### Exceptions (`core/mcp/exceptions.py`) and transport-level data

The exception hierarchy is embedded as one inductive; `Python str(e)` on any
`MCPError` subclass is its `message` (the base class calls
`Exception.__init__(message)`), and `other` stands for any non-MCP Python
exception, carrying its `str` rendering. -/

/-- A raised Python exception, as observed by the handlers in the code:
`MCPValidationError`, `MCPRateLimitError`, `MCPAuthenticationError`,
`MCPConnectionError`, `MCPToolExecutionError`, `MCPServerError`, or any
non-MCP exception (`other`). -/
inductive PyExc where
  | validation (message : String) (field_errors : List (String × List String)) : PyExc
  | rateLimit (message : String) (retry_after : Int) : PyExc
  | auth (message : String) (is_token_expired : Bool) : PyExc
  | connection (message : String) : PyExc
  | toolExecution (message : String) (tool_name : Option String) : PyExc
  | server (message : String) (status_code : Option Int) : PyExc
  | other (message : String) : PyExc
deriving Repr, DecidableEq

/-- `isinstance(e, MCPError)`. -/
def PyExc.isMCPError : PyExc → Bool
  | .other _ => false
  | _ => true

/-- Python `str(e)`. -/
def PyExc.toMessage : PyExc → String
  | .validation m _ => m
  | .rateLimit m _ => m
  | .auth m _ => m
  | .connection m => m
  | .toolExecution m _ => m
  | .server m _ => m
  | .other m => m

/-- Modelled from the spec: the JSON-RPC error-code classes announced by the
transport module (`transport.py`, which is not in the source tree; only its
importers are).  The spec names exactly these classes: authentication
failure, rate-limited, method-not-found, invalid-params, generic server
error. -/
inductive JSONRPCErrorCode where
  | AUTHENTICATION_FAILED : JSONRPCErrorCode
  | RATE_LIMITED : JSONRPCErrorCode
  | METHOD_NOT_FOUND : JSONRPCErrorCode
  | INVALID_PARAMS : JSONRPCErrorCode
  | SERVER_ERROR : JSONRPCErrorCode
deriving Repr, DecidableEq

/-- Modelled from the spec: a structured transport response — "a success
envelope with `result`, or error envelope with `{code, message}`" plus the
measured latency (in milliseconds, modelled as an integer; the code only
passes it through). -/
structure MCPResponse where
  is_success : Bool
  result : Option Json := none
  error_code : Option JSONRPCErrorCode := none
  error_message : Option String := none
  latency_ms : Option Int := none
  http_status : Option Int := none
deriving Repr

/-- Modelled from the spec: the transport classifies a failed response
carrying the rate-limited code as rate limited. -/
def MCPResponse.is_rate_limited (r : MCPResponse) : Bool :=
  ¬ r.is_success ∧ r.error_code = some JSONRPCErrorCode.RATE_LIMITED

/-- Modelled from the spec: the transport classifies a failed response
carrying the authentication code as an auth error. -/
def MCPResponse.is_auth_error (r : MCPResponse) : Bool :=
  ¬ r.is_success ∧ r.error_code = some JSONRPCErrorCode.AUTHENTICATION_FAILED

/-! ### `MCPTool` (`core/mcp/client.py` lines 50–148) -/

/-- An MCP tool definition.  `input_schema` is kept as a JSON value: the
code treats it as an arbitrary dictionary. -/
structure MCPTool where
  name : String
  description : String
  input_schema : Json := Json.obj []
  provider : Option String := none
  category : Option String := none
deriving Repr

/-- Extract the string payloads of a JSON array of names, as used by the
`required` list of a JSON-Schema (whose entries are strings). -/
def jsonStrings (xs : List Json) : List String :=
  xs.filterMap (fun j => match j with | Json.str s => some s | _ => none)

/-- `MCPTool.required_params`: `schema.get("required", [])` when the schema
has a `properties` key, else `[]`.  The `required` value is modelled as a
string array (its JSON-Schema type); a non-array value there would be
returned raw by Python. -/
def MCPTool.required_params (t : MCPTool) : List String :=
  match t.input_schema with
  | Json.obj kvs =>
      if hasKey kvs "properties" then
        match pyGet kvs "required" with
        | some (Json.arr xs) => jsonStrings xs
        | _ => []
      else []
  | _ => []

/-- `MCPTool.all_params`: the keys of `schema["properties"]`.  A present but
non-dict `properties` makes Python raise on `.keys()`; the schema is
modelled as a JSON object there. -/
def MCPTool.all_params (t : MCPTool) : List String :=
  match t.input_schema with
  | Json.obj kvs =>
      match pyGet kvs "properties" with
      | some (Json.obj props) => props.map (fun p => p.1)
      | _ => []
  | _ => []

/-- `MCPTool.optional_params`: the declared parameters that are not in the
required set. -/
def MCPTool.optional_params (t : MCPTool) : List String :=
  match t.input_schema with
  | Json.obj kvs =>
      if hasKey kvs "properties" then
        match pyGet kvs "properties" with
        | some (Json.obj props) =>
            (props.map (fun p => p.1)).filter
              (fun p => ¬ p ∈ t.required_params)
        | _ => []
      else []
  | _ => []

/-- The loop body of `MCPTool.validate_params` over the required names:
each missing required parameter appends a "Missing required parameter"
message, each required parameter that is present but `None` appends a
"Required parameter cannot be null" message. -/
def validateRequired (params : List (String × Json)) : List String → List String
  | [] => []
  | r :: rs =>
      (if ¬ hasKey params r then ["Missing required parameter: " ++ r]
       else if isNullOpt (pyGet params r) then
         ["Required parameter cannot be null: " ++ r]
       else []) ++ validateRequired params rs

/-- `MCPTool.validate_params`: returns the list of validation-error
messages (empty if valid).  The unknown-parameter pass only logs a warning
and contributes nothing to the returned list. -/
def MCPTool.validate_params (t : MCPTool) (params : List (String × Json)) :
    List String :=
  validateRequired params t.required_params

/-- Helper for optional string fields serialised to JSON (`None` → `null`). -/
def optStrToJson : Option String → Json
  | none => Json.null
  | some s => Json.str s

/-- `MCPTool.from_dict`.  The `name`/`description` defaults are those of the
code; a non-string value under those keys (which Python would store untyped,
against the dataclass annotations) is not modelled and falls back to the
default. -/
def MCPTool.from_dict (data : List (String × Json)) : MCPTool :=
  { name := match pyGet data "name" with
      | some (Json.str s) => s
      | _ => "unknown"
  , description := match pyGet data "description" with
      | some (Json.str s) => s
      | _ => ""
  , input_schema :=
      match pyGet data "inputSchema" with
      | some v => v
      | none => (pyGet data "input_schema").getD (Json.obj [])
  , provider := match pyGet data "provider" with
      | some (Json.str s) => some s
      | _ => none
  , category := match pyGet data "category" with
      | some (Json.str s) => some s
      | _ => none }

/-- `MCPTool.to_dict`. -/
def MCPTool.to_dict (t : MCPTool) : List (String × Json) :=
  [("name", Json.str t.name),
   ("description", Json.str t.description),
   ("input_schema", t.input_schema),
   ("provider", optStrToJson t.provider),
   ("category", optStrToJson t.category),
   ("required_params", Json.arr (t.required_params.map Json.str)),
   ("optional_params", Json.arr (t.optional_params.map Json.str))]

/-! ### `MCPToolResult` (`core/mcp/client.py` lines 151–222) -/

/-- Result of one tool execution. -/
structure MCPToolResult where
  success : Bool
  tool_name : String
  result : Option Json := none
  error : Option String := none
  error_code : Option JSONRPCErrorCode := none
  execution_time_ms : Option Int := none
deriving Repr

/-- `MCPToolResult.from_response`. -/
def MCPToolResult.from_response (tool_name : String) (r : MCPResponse) :
    MCPToolResult :=
  if r.is_success then
    { success := true, tool_name := tool_name, result := r.result,
      execution_time_ms := r.latency_ms }
  else
    { success := false, tool_name := tool_name, error := r.error_message,
      error_code := r.error_code, execution_time_ms := r.latency_ms }

/-- `MCPToolResult.from_error`. -/
def MCPToolResult.from_error (tool_name : String) (error : String)
    (error_code : Option JSONRPCErrorCode := none) : MCPToolResult :=
  { success := false, tool_name := tool_name, error := some error,
    error_code := error_code }

/-! ### `MCPClient` (`core/mcp/client.py` lines 225–678)

The client's mutable attributes form `ClientState`.  Each async operation
becomes a state-transformer returning the post-state together with either a
value or a raised exception; Python mutations that happen before a raise are
kept in the returned state.  Timestamps (`datetime.now(timezone.utc)`) are
an explicit integer-seconds argument; the transport's behaviour (its
responses, and whether `transport.connect()` succeeded) are explicit inputs
since `transport.py` performs network I/O. -/

/-- The mutable state of an `MCPClient`. -/
structure ClientState where
  cache_tools : Bool := true
  tool_cache_ttl : Int := 300
  validate_params : Bool := true
  tools_cache : List (String × MCPTool) := []
  tools_cache_time : Option Int := none
  connected : Bool := false
  transport_connected : Bool := false
  server_info : Option Json := none
  call_count : Nat := 0
  error_count : Nat := 0
deriving Repr

/-- `MCPClient.is_connected`: the client flag and the transport flag. -/
def MCPClient.is_connected (st : ClientState) : Bool :=
  st.connected ∧ st.transport_connected

/-- `MCPClient._is_cache_valid` at clock `now`. -/
def MCPClient.is_cache_valid (st : ClientState) (now : Int) : Bool :=
  if ¬ st.cache_tools then false
  else
    match st.tools_cache_time with
    | none => false
    | some t => ¬ st.tools_cache.isEmpty ∧ now - t < st.tool_cache_ttl

/-- `MCPClient._handle_error_response`: maps an MCP error response to the
exception it raises.  Python's `error_message or "Unknown error"` also
replaces an empty message. -/
def MCPClient.handle_error_response (r : MCPResponse) (operation : String) :
    PyExc :=
  let msg :=
    match r.error_message with
    | some m => if m = "" then "Unknown error" else m
    | none => "Unknown error"
  if r.is_auth_error then
    PyExc.auth ("Authentication failed during " ++ operation ++ ": " ++ msg)
      (r.error_code = some JSONRPCErrorCode.AUTHENTICATION_FAILED)
  else if r.is_rate_limited then
    PyExc.rateLimit ("Rate limited during " ++ operation ++ ": " ++ msg) 60
  else if r.error_code = some JSONRPCErrorCode.METHOD_NOT_FOUND then
    PyExc.toolExecution ("Method not found: " ++ operation) (some operation)
  else if r.error_code = some JSONRPCErrorCode.INVALID_PARAMS then
    PyExc.validation ("Invalid parameters for " ++ operation ++ ": " ++ msg) []
  else
    PyExc.server ("Server error during " ++ operation ++ ": " ++ msg)
      r.http_status

/-- The tools parsed from a `tools/list` response body: `response.result`
must be truthy, its `tools` entry is iterated and each element goes through
`MCPTool.from_dict`.  A non-object element would make Python raise inside
`from_dict`; elements are modelled as objects (the wire format's
`{name, description, inputSchema}`). -/
def parseToolsData (result : Option Json) : List MCPTool :=
  match result with
  | some r =>
      if r.truthy then
        match r with
        | Json.obj kvs =>
            match pyGet kvs "tools" with
            | some (Json.arr xs) =>
                xs.filterMap (fun j =>
                  match j with
                  | Json.obj data => some (MCPTool.from_dict data)
                  | _ => none)
            | _ => []
        | _ => []
      else []
  | none => []

/-- `MCPClient.list_tools`: serve from the cache when valid and not forced;
otherwise consult the transport (`sendRes` is the outcome of
`transport.send_request` for the `tools/list` request), raise on an error
response, and otherwise store each parsed tool into the cache (the cache is
not cleared first) and stamp the cache time. -/
def MCPClient.list_tools (st : ClientState) (now : Int) (force_refresh : Bool)
    (sendRes : Except PyExc MCPResponse) :
    ClientState × Except PyExc (List MCPTool) :=
  if ¬ MCPClient.is_connected st then
    (st, Except.error (PyExc.connection "Not connected to MCP server"))
  else if ¬ force_refresh ∧ MCPClient.is_cache_valid st now then
    (st, Except.ok (st.tools_cache.map (fun p => p.2)))
  else
    match sendRes with
    | Except.error e => (st, Except.error e)
    | Except.ok response =>
        if ¬ response.is_success then
          (st, Except.error (MCPClient.handle_error_response response "list_tools"))
        else
          let tools := parseToolsData response.result
          let cache := tools.foldl (fun c t => dictSet c t.name t) st.tools_cache
          ({ st with tools_cache := cache, tools_cache_time := some now },
           Except.ok tools)

/-- `MCPClient.get_tool`: lazily populate the cache via `list_tools` when it
is empty, then look the name up; a `list_tools` failure propagates. -/
def MCPClient.get_tool (st : ClientState) (tool_name : String) (now : Int)
    (listSend : Except PyExc MCPResponse) :
    ClientState × Except PyExc (Option MCPTool) :=
  if st.tools_cache.isEmpty then
    match MCPClient.list_tools st now false listSend with
    | (st', Except.error e) => (st', Except.error e)
    | (st', Except.ok _) => (st', Except.ok (dictGet st'.tools_cache tool_name))
  else (st, Except.ok (dictGet st.tools_cache tool_name))

/-- `MCPClient.call_tool`: connection guard, call counter, lazy tool lookup
for validation, required-parameter validation, dispatch (`sendRes` is the
transport outcome of the `tools/call` request), response mapping, and
re-raising of rate-limit / auth classified failures. -/
def MCPClient.call_tool (st : ClientState) (tool_name : String)
    (params : List (String × Json)) (validate : Option Bool) (now : Int)
    (listSend : Except PyExc MCPResponse) (sendRes : Except PyExc MCPResponse) :
    ClientState × Except PyExc MCPToolResult :=
  if ¬ MCPClient.is_connected st then
    (st, Except.error (PyExc.connection "Not connected to MCP server"))
  else
    let st := { st with call_count := st.call_count + 1 }
    let should_validate := validate.getD st.validate_params
    match MCPClient.get_tool st tool_name now listSend with
    | (st, Except.error e) => (st, Except.error e)
    | (st, Except.ok toolOpt) =>
        let validationErrors :=
          match toolOpt with
          | some tool =>
              if should_validate then tool.validate_params params else []
          | none => []
        if validationErrors ≠ [] then
          (st, Except.error (PyExc.validation
            ("Invalid parameters for " ++ tool_name ++ ": " ++
              String.intercalate "; " validationErrors)
            [(tool_name, validationErrors)]))
        else
          match sendRes with
          | Except.error e => (st, Except.error e)
          | Except.ok response =>
              let result := MCPToolResult.from_response tool_name response
              if result.success then (st, Except.ok result)
              else
                let st := { st with error_count := st.error_count + 1 }
                if response.is_rate_limited then
                  (st, Except.error (PyExc.rateLimit
                    ("Rate limited while executing " ++ tool_name) 60))
                else if response.is_auth_error then
                  (st, Except.error (PyExc.auth
                    ("Authentication failed for " ++ tool_name) false))
                else (st, Except.ok result)

/-- `MCPClient.call_tool_safe`: `call_tool` with every exception converted
to a failure result — validation errors keep the invalid-params code,
rate-limit errors the rate-limited code, other MCP errors no code, and any
other exception is wrapped as "Unexpected error". -/
def MCPClient.call_tool_safe (st : ClientState) (tool_name : String)
    (params : List (String × Json)) (now : Int)
    (listSend : Except PyExc MCPResponse) (sendRes : Except PyExc MCPResponse) :
    ClientState × MCPToolResult :=
  match MCPClient.call_tool st tool_name params none now listSend sendRes with
  | (st, Except.ok r) => (st, r)
  | (st, Except.error e) =>
      match e with
      | PyExc.validation _ _ =>
          (st, MCPToolResult.from_error tool_name e.toMessage
            (some JSONRPCErrorCode.INVALID_PARAMS))
      | PyExc.rateLimit _ _ =>
          (st, MCPToolResult.from_error tool_name e.toMessage
            (some JSONRPCErrorCode.RATE_LIMITED))
      | PyExc.other m =>
          (st, MCPToolResult.from_error tool_name ("Unexpected error: " ++ m))
      | _ => (st, MCPToolResult.from_error tool_name e.toMessage)

/-- `MCPClient.disconnect`: release the transport, drop the connected flag,
clear the tool cache, the cache timestamp and the server info.  The call and
error counters are only logged. -/
def MCPClient.disconnect (st : ClientState) : ClientState :=
  { st with transport_connected := false, connected := false,
            tools_cache := [], tools_cache_time := none, server_info := none }

/-- `MCPClient.connect`: connect the transport (`transportOk` is its
outcome), set the connected flag, attempt the optional `initialize`
handshake (`initRes`; failures are swallowed), and pre-fetch the tool list
when caching is enabled (`prefetchSend`; failures are swallowed). -/
def MCPClient.connect (st : ClientState) (transportOk : Bool)
    (initRes : Except PyExc MCPResponse)
    (prefetchSend : Except PyExc MCPResponse) (now : Int) :
    ClientState × Except PyExc Bool :=
  if ¬ transportOk then
    (st, Except.error (PyExc.connection "Transport failed to connect"))
  else
    let st := { st with transport_connected := true, connected := true }
    let st :=
      match initRes with
      | Except.ok resp =>
          if resp.is_success then { st with server_info := resp.result } else st
      | Except.error _ => st
    let st :=
      if st.cache_tools then
        (MCPClient.list_tools st now false prefetchSend).1
      else st
    (st, Except.ok true)

/-! ### `MCPSecurityManager` (`core/mcp/security.py`) -/

/-- `MCPCredentials` (the fields the operations under verification read).
Clock values are integer seconds. -/
structure MCPCredentials where
  server_url : String
  provider : String := "zapier"
  expires_at : Option Int := none
deriving Repr, DecidableEq

/-- `MCPCredentials.is_expired` at clock `now`: no expiry means never
expired. -/
def MCPCredentials.is_expired (c : MCPCredentials) (now : Int) : Bool :=
  match c.expires_at with
  | none => false
  | some t => now > t

/-- `MCPCredentials.is_valid`: URL present and not expired. -/
def MCPCredentials.is_valid (c : MCPCredentials) (now : Int) : Bool :=
  c.server_url ≠ "" ∧ ¬ c.is_expired now

/-- The credential cache of an `MCPSecurityManager`. -/
structure SecurityState where
  credentials_cache : List (String × MCPCredentials) := []
  mcp_enabled : Bool := false
deriving Repr, DecidableEq

/-- `MCPSecurityManager.is_zapier_configured`: a `zapier` entry exists and
is valid. -/
def MCPSecurityManager.is_zapier_configured (st : SecurityState) (now : Int) :
    Bool :=
  match dictGet st.credentials_cache "zapier" with
  | some c => c.is_valid now
  | none => false

/-- `MCPSecurityManager.get_zapier_credentials`.  The code consults the
clock twice (once inside `is_zapier_configured`, once in the expiry
re-check); both reads are modelled as the same instant `now`, which is the
only behaviour a caller can rely on. -/
def MCPSecurityManager.get_zapier_credentials (st : SecurityState)
    (now : Int) : Except PyExc (Option MCPCredentials) :=
  if ¬ MCPSecurityManager.is_zapier_configured st now then Except.ok none
  else
    match dictGet st.credentials_cache "zapier" with
    | none => Except.ok none
    | some creds =>
        if creds.is_expired now then
          Except.error (PyExc.auth "Zapier MCP credentials have expired" true)
        else Except.ok (some creds)

/-- The sensitive key substrings of `mask_sensitive_data`. -/
def sensitive_patterns : List String :=
  ["url", "token", "secret", "key", "password", "auth", "credential"]

/-- `_mask_value` inside `MCPSecurityManager.mask_sensitive_data`:
dicts recurse with each entry's own key, lists recurse with the governing
key, and a string under a sensitive key is masked (head/tail for length
over 8, a fixed placeholder otherwise); all other values pass through. -/
def maskValue (key : String) : Json → Json
  | .obj kvs =>
      .obj (kvs.attach.map (fun ⟨(k, v), _⟩ => (k, maskValue k v)))
  | .arr xs => .arr (xs.attach.map (fun ⟨x, _⟩ => maskValue key x))
  | .str s =>
      if sensitive_patterns.any (fun p => strContains (pyLower key) p) then
        if s.length > 8 then
          .str (s.take 4 ++ "..." ++ s.drop (s.length - 4))
        else .str "****"
      else .str s
  | v => v
termination_by j => sizeOf j
decreasing_by
  · rename_i h; have := List.sizeOf_lt_of_mem h; simp at this ⊢; omega
  · rename_i h; have := List.sizeOf_lt_of_mem h; simp at this ⊢; omega

/-- `MCPSecurityManager.mask_sensitive_data` on a parameter dictionary. -/
def MCPSecurityManager.mask_sensitive_data (data : List (String × Json)) :
    List (String × Json) :=
  data.map (fun p => (p.1, maskValue p.1 p.2))

/-- Modelled from the spec's words: a key is sensitive when its lower-cased
name contains one of the substrings url, token, secret, key, password,
auth, credential. -/
def specSensitiveKey (key : String) : Bool :=
  strContains (pyLower key) "url" ∨ strContains (pyLower key) "token" ∨
  strContains (pyLower key) "secret" ∨ strContains (pyLower key) "key" ∨
  strContains (pyLower key) "password" ∨ strContains (pyLower key) "auth" ∨
  strContains (pyLower key) "credential"

/-- Modelled from the spec's words: a string longer than 8 characters
becomes its first 4 characters plus "..." plus its last 4 characters; a
string of length at most 8 becomes the fixed placeholder. -/
def specMaskString (s : String) : String :=
  if s.length > 8 then s.take 4 ++ "..." ++ s.drop (s.length - 4)
  else "****"

/-- Modelled from the spec's words for the masking walk: recursively walk
nested dictionaries and lists and replace exactly the string values whose
key name contains a sensitive substring; all other keys and values are
returned unchanged. -/
def specMaskValue (key : String) : Json → Json
  | .obj kvs =>
      .obj (kvs.attach.map (fun ⟨(k, v), _⟩ => (k, specMaskValue k v)))
  | .arr xs => .arr (xs.attach.map (fun ⟨x, _⟩ => specMaskValue key x))
  | .str s => if specSensitiveKey key then .str (specMaskString s) else .str s
  | v => v
termination_by j => sizeOf j
decreasing_by
  · rename_i h; have := List.sizeOf_lt_of_mem h; simp at this ⊢; omega
  · rename_i h; have := List.sizeOf_lt_of_mem h; simp at this ⊢; omega

/-- Modelled from the spec's words: the whole-dictionary masking pass. -/
def specMaskData (data : List (String × Json)) : List (String × Json) :=
  data.map (fun p => (p.1, specMaskValue p.1 p.2))

/-! ### Zapier bridge (`core/mcp/zapier_integration.py`) -/

/-- `ZapierToolCategory`. -/
inductive ZapierToolCategory where
  | EMAIL | CRM | SPREADSHEET | CALENDAR | MESSAGING | PROJECT | STORAGE
  | SOCIAL | ECOMMERCE | SUPPORT | AUTOMATION | DATABASE | MARKETING
  | ANALYTICS | FINANCE | HR | OTHER
deriving Repr, DecidableEq

/-- `ZapierToolCategory.value`. -/
def ZapierToolCategory.value : ZapierToolCategory → String
  | .EMAIL => "email" | .CRM => "crm" | .SPREADSHEET => "spreadsheet"
  | .CALENDAR => "calendar" | .MESSAGING => "messaging" | .PROJECT => "project"
  | .STORAGE => "storage" | .SOCIAL => "social" | .ECOMMERCE => "ecommerce"
  | .SUPPORT => "support" | .AUTOMATION => "automation" | .DATABASE => "database"
  | .MARKETING => "marketing" | .ANALYTICS => "analytics" | .FINANCE => "finance"
  | .HR => "hr" | .OTHER => "other"

/-- `ZapierTool`. -/
structure ZapierTool where
  mcp_tool : MCPTool
  app_name : String
  action_name : String
  category : ZapierToolCategory := ZapierToolCategory.OTHER
  requires_auth : Bool := true
  is_configured : Bool := true
deriving Repr

/-- `ZapierTool.name`. -/
def ZapierTool.name (t : ZapierTool) : String := t.mcp_tool.name

/-- The mutable state of a `ZapierMCPClient`.  The wrapped `MCPClient` is
represented by whether it exists (`hasClient`); the outcomes of its method
calls are explicit inputs to the operations below, since they go through
the transport. -/
structure ZapierClientState where
  hasClient : Bool := false
  connected : Bool := false
  tools : List (String × ZapierTool) := []
  action_count : Nat := 0
  success_count : Nat := 0
  error_count : Nat := 0
  actions_by_category : List (String × Nat) := []
  actions_by_tool : List (String × Nat) := []
deriving Repr

/-- `d[k] = d.get(k, 0) + 1` on a counter dict. -/
def bumpCounter (m : List (String × Nat)) (k : String) : List (String × Nat) :=
  dictSet m k ((dictGet m k).getD 0 + 1)

/-- `ZapierMCPClient.execute_action`: guard on the wrapped client, usage
counters (total, per-category when the tool is known, per-tool), dispatch
through `MCPClient.call_tool` (outcome `callRes`), success/error counters,
and exception policy: MCP errors and tool-lookup errors propagate, any other
exception is wrapped in `MCPToolExecutionError`.  `getToolRes` is the
outcome of `self.get_tool` (which may refresh the tool list over the
network). -/
def ZapierMCPClient.execute_action (st : ZapierClientState)
    (tool_name : String) (getToolRes : Except PyExc (Option ZapierTool))
    (callRes : Except PyExc MCPToolResult) :
    ZapierClientState × Except PyExc MCPToolResult :=
  if ¬ st.hasClient then
    (st, Except.error (PyExc.connection "Not connected to Zapier"))
  else
    let st := { st with action_count := st.action_count + 1 }
    match getToolRes with
    | Except.error e => (st, Except.error e)
    | Except.ok toolOpt =>
        let st :=
          match toolOpt with
          | some tool =>
              { st with actions_by_category :=
                  bumpCounter st.actions_by_category tool.category.value }
          | none => st
        let st :=
          { st with actions_by_tool :=
              bumpCounter st.actions_by_tool tool_name }
        match callRes with
        | Except.ok result =>
            if result.success then
              ({ st with success_count := st.success_count + 1 },
               Except.ok result)
            else
              ({ st with error_count := st.error_count + 1 },
               Except.ok result)
        | Except.error e =>
            let st := { st with error_count := st.error_count + 1 }
            if e.isMCPError then (st, Except.error e)
            else
              (st, Except.error (PyExc.toolExecution
                ("Unexpected error: " ++ e.toMessage) (some tool_name)))

/-- `ZapierMCPClient.execute_action_safe`: never raises; every exception
becomes a failure result carrying `str(e)`. -/
def ZapierMCPClient.execute_action_safe (st : ZapierClientState)
    (tool_name : String) (getToolRes : Except PyExc (Option ZapierTool))
    (callRes : Except PyExc MCPToolResult) :
    ZapierClientState × MCPToolResult :=
  match ZapierMCPClient.execute_action st tool_name getToolRes callRes with
  | (st, Except.ok r) => (st, r)
  | (st, Except.error e) =>
      (st, { success := false, tool_name := tool_name,
             error := some e.toMessage })

/-! ### Soft-failure scanner
(`ZapierToolManager._extract_zapier_error_or_question`,
`core/mcp/zapier_integration.py` lines 790–874)

The scanner body sits inside `try: ... except Exception: pass` followed by
`return None`; the only statement in it that can raise is `json.loads`
applied to a non-string `text` value (a `TypeError`, which
`except json.JSONDecodeError` does not catch).  `Except Unit` carries that
propagating exception; `jsonLoads` returning `none` is the locally-caught
`JSONDecodeError`. -/

/-- `item.get("type") == "text"` for a content block. -/
def isTextType (v : Option Json) : Bool :=
  match v with
  | some (Json.str s) => s == "text"
  | _ => false

/-- `json.loads(text)` where `text` came out of a dict: a non-string raises
(`Except.error`), an undecodable string is a `JSONDecodeError` (`none`). -/
def jsonLoadsValue (text : Json) : Except Unit (Option Json) :=
  match text with
  | Json.str s => Except.ok (jsonLoads s)
  | _ => Except.error ()

/-- One iteration of the content scan inside the top-level `isError` branch:
a text block whose decoded JSON is a dict with a truthy `error` yields that
error. -/
def scanContentItemIsError (item : Json) : Except Unit (Option Json) :=
  match item with
  | Json.obj kvs =>
      if isTextType (pyGet kvs "type") then
        match jsonLoadsValue ((pyGet kvs "text").getD (Json.str "")) with
        | Except.error () => Except.error ()
        | Except.ok parsed =>
            match parsed with
            | some (Json.obj pkvs) =>
                if truthyOpt (pyGet pkvs "error") then
                  Except.ok (pyGet pkvs "error")
                else Except.ok none
            | _ => Except.ok none
      else Except.ok none
  | _ => Except.ok none

/-- One iteration of the content scan outside the top-level `isError`
branch, including the raw-text fallback when the text is not JSON. -/
def scanContentItem (item : Json) : Except Unit (Option Json) :=
  match item with
  | Json.obj kvs =>
      if isTextType (pyGet kvs "type") then
        let text := (pyGet kvs "text").getD (Json.str "")
        match jsonLoadsValue text with
        | Except.error () => Except.error ()
        | Except.ok (some (Json.obj pkvs)) =>
            if truthyOpt (pyGet pkvs "isError") then
              Except.ok (some ((pyGet pkvs "error").getD
                (Json.str "Zapier returned an error")))
            else
              let error := (pyGet pkvs "error").getD (Json.str "")
              if error.truthy ∧
                  (strContains (pyStr error) "Question:" ∨
                   strContains (pyStr error) "?") then
                Except.ok (some error)
              else
                let question := (pyGet pkvs "question").getD (Json.str "")
                if question.truthy then Except.ok (some question)
                else Except.ok none
        | Except.ok (some _) => Except.ok none
        | Except.ok none =>
            match text with
            | Json.str s =>
                if strContains s "Question:" ∨
                    (strContains s "?" ∧ strContains (pyLower s) "which") then
                  Except.ok (some (Json.str s))
                else Except.ok none
            | _ => Except.ok none
      else Except.ok none
  | _ => Except.ok none

/-- `for item in content: ...` with early `return`: the first item that
yields a value wins; a raised exception aborts the loop. -/
def scanItems (f : Json → Except Unit (Option Json)) :
    List Json → Except Unit (Option Json)
  | [] => Except.ok none
  | x :: xs =>
      match f x with
      | Except.error () => Except.error ()
      | Except.ok (some v) => Except.ok (some v)
      | Except.ok none => scanItems f xs

/-- The top-level `isError` branch of the scanner: scan the content blocks
for an embedded error, falling back to the fixed message. -/
def isErrorBranch (kvs : List (String × Json)) : Except Unit (Option Json) :=
  match (pyGet kvs "content").getD (Json.arr []) with
  | Json.arr items =>
      match scanItems scanContentItemIsError items with
      | Except.error () => Except.error ()
      | Except.ok (some v) => Except.ok (some v)
      | Except.ok none => Except.ok (some (Json.str "Zapier returned an error"))
  | _ => Except.ok (some (Json.str "Zapier returned an error"))

/-- `ZapierToolManager._extract_zapier_error_or_question` (also aliased as
`_extract_zapier_question`): `None` or a falsy result yields nothing;
a dict is scanned through its content blocks (with the `isError` branch
taking precedence); a string is decoded and scanned, with a raw-text
fallback; any raised exception inside is swallowed to `None`. -/
def extract_zapier_error_or_question (result : Option Json) : Option Json :=
  match result with
  | none => none
  | some r =>
      if ¬ r.truthy then none
      else
        let body : Except Unit (Option Json) :=
          match r with
          | Json.obj kvs =>
              if truthyOpt (pyGet kvs "isError") then isErrorBranch kvs
              else
                match (pyGet kvs "content").getD (Json.arr []) with
                | Json.arr items => scanItems scanContentItem items
                | _ => Except.ok none
          | Json.str s =>
              match jsonLoads s with
              | some (Json.obj pkvs) =>
                  if truthyOpt (pyGet pkvs "isError") then
                    Except.ok (some ((pyGet pkvs "error").getD
                      (Json.str "Zapier returned an error")))
                  else
                    let error := (pyGet pkvs "error").getD (Json.str "")
                    if error.truthy ∧
                        (strContains (pyStr error) "Question:" ∨
                         strContains (pyStr error) "?") then
                      Except.ok (some error)
                    else Except.ok none
              | some _ => Except.ok none
              | none =>
                  if strContains s "Question:" ∨
                      (strContains s "?" ∧ strContains (pyLower s) "which") then
                    Except.ok (some (Json.str s))
                  else Except.ok none
          | _ => Except.ok none
        match body with
        | Except.ok v => v
        | Except.error () => none

/-! ### `ZapierToolManager` (`core/mcp/zapier_integration.py` lines 614–1005) -/

/-- The state of a `ZapierToolManager` as read by `execute`: the
initialization flag, whether the wrapped `ZapierMCPClient` exists, and the
configured tool-name prefix (`"zapier_"` by default). -/
structure ZapierManagerState where
  initialized : Bool := false
  hasClient : Bool := false
  namePrefix : String := "zapier_"
deriving Repr, DecidableEq

/-- The flat result dictionary returned by `ZapierToolManager.execute`.
Optional fields model keys that are absent from some of the returned
dictionaries. -/
structure ExecuteResult where
  success : Bool
  tool : Option String
  result : Option Json := none
  error : Option String := none
  needs_clarification : Option Bool := none
  clarification_question : Option Json := none
  execution_time_ms : Option Int := none
  provider : String
deriving Repr

/-- `ZapierToolManager.execute`: the uniform tool contract.  Guards: an
uninitialized manager (or one without a client) and a falsy `tool_name`
each short-circuit to a failure dictionary.  Otherwise the configured
prefix is stripped and the action dispatched through
`ZapierMCPClient.execute_action` (outcome `callRes`); a successful result
is re-examined by the soft-failure scanner and re-labelled as a
clarification request when it embeds a question or error; raised MCP errors
and unexpected exceptions become failure dictionaries.  `query` and
`user_id` are only logged. -/
def ZapierToolManager.execute (st : ZapierManagerState) (query : String)
    (user_id : Option String) (tool_name : Option String)
    (params : Option (List (String × Json)))
    (callRes : Except PyExc MCPToolResult) : ExecuteResult :=
  if ¬ (st.initialized ∧ st.hasClient) then
    { success := false, error := some "ZapierToolManager not initialized",
      tool := tool_name, provider := "zapier_mcp" }
  else
    match tool_name with
    | none =>
        { success := false, error := some "No tool_name provided",
          tool := none, provider := "zapier_mcp" }
    | some name =>
      if name = "" then
        { success := false, error := some "No tool_name provided",
          tool := none, provider := "zapier_mcp" }
      else
        let _actual_tool_name :=
          if listStartsWith st.namePrefix.toList name.toList then
            name.drop st.namePrefix.length
          else name
        match callRes with
        | Except.ok result =>
            match extract_zapier_error_or_question result.result with
            | some q =>
                { success := false, tool := some name, result := result.result,
                  error := some ("Zapier needs more information: " ++ pyStr q),
                  needs_clarification := some true,
                  clarification_question := some q,
                  execution_time_ms := result.execution_time_ms,
                  provider := "zapier_mcp" }
            | none =>
                { success := result.success, tool := some name,
                  result := result.result, error := result.error,
                  execution_time_ms := result.execution_time_ms,
                  provider := "zapier_mcp" }
        | Except.error e =>
            if e.isMCPError then
              { success := false, tool := some name,
                error := some e.toMessage, provider := "zapier_mcp" }
            else
              { success := false, tool := some name,
                error := some ("Unexpected error: " ++ e.toMessage),
                provider := "zapier_mcp" }

/-! ### Helper lemmas -/

/-- A string containing `"?"` is non-empty. -/
theorem isEmpty_false_of_contains_q (e : String) (h : strContains e "?" = true) :
    e.isEmpty = false := by
  cases he : e.isEmpty
  · rfl
  · exfalso
    have he' : e = "" := (String.isEmpty_iff e).mp he
    subst he'
    exact absurd h (by decide)

/-- The soft-failure scanner on the MCP content envelope
`{"content": [{"type": "text", "text": t}]}` where `t` decodes to a JSON
object whose `error` field is a string containing a question mark: the
scanner extracts that error string (through the inner-`isError` branch when
that flag is truthy, or through the question-mark test otherwise). -/
theorem extract_obj_error_question (t e : String) (pkvs : List (String × Json))
    (hparse : jsonLoads t = some (Json.obj pkvs))
    (herr : pyGet pkvs "error" = some (Json.str e))
    (hq : strContains e "?" = true) :
    extract_zapier_error_or_question (some (Json.obj
      [("content", Json.arr
        [Json.obj [("type", Json.str "text"), ("text", Json.str t)]])]))
      = some (Json.str e) := by
  have hne : e.isEmpty = false := isEmpty_false_of_contains_q e hq
  have htype : pyGet [("type", Json.str "text"), ("text", Json.str t)] "type"
      = some (Json.str "text") := rfl
  have htext : pyGet [("type", Json.str "text"), ("text", Json.str t)] "text"
      = some (Json.str t) := rfl
  have hitem : scanContentItem
      (Json.obj [("type", Json.str "text"), ("text", Json.str t)])
      = Except.ok (some (Json.str e)) := by
    cases hie : truthyOpt (pyGet pkvs "isError") with
    | true =>
        simp [scanContentItem, isTextType, htype, htext, jsonLoadsValue,
          hparse, hie, herr]
    | false =>
        simp [scanContentItem, isTextType, htype, htext, jsonLoadsValue,
          hparse, hie, herr, hq, hne, pyStr, Json.truthy]
  have hscan : scanItems scanContentItem
      [Json.obj [("type", Json.str "text"), ("text", Json.str t)]]
      = Except.ok (some (Json.str e)) := by
    simp [scanItems, hitem]
  simp [extract_zapier_error_or_question, Json.truthy, truthyOpt, pyGet, hscan]

/-- C1: for every `ZapierToolManager.execute` call whose underlying tool
invocation succeeds but returns a payload
`{"content": [{"type": "text", "text": t}]}` where `t` is a JSON string
encoding an object whose `error` field contains a question mark (such as an
interrogative clarification request), `execute` returns `success = false`,
`needs_clarification = true`, and `clarification_question` carrying the
embedded question text. -/
theorem c1_soft_failure_needs_clarification
    (st : ZapierManagerState) (query : String) (user_id : Option String)
    (params : Option (List (String × Json))) (name t e : String)
    (pkvs : List (String × Json)) (res : MCPToolResult)
    (hinit : st.initialized = true) (hcl : st.hasClient = true)
    (hname : name ≠ "") (hsucc : res.success = true)
    (hres : res.result = some (Json.obj [("content", Json.arr
      [Json.obj [("type", Json.str "text"), ("text", Json.str t)]])]))
    (hparse : jsonLoads t = some (Json.obj pkvs))
    (herr : pyGet pkvs "error" = some (Json.str e))
    (hq : strContains e "?" = true) :
    (ZapierToolManager.execute st query user_id (some name) params
        (Except.ok res)).success = false ∧
    (ZapierToolManager.execute st query user_id (some name) params
        (Except.ok res)).needs_clarification = some true ∧
    (ZapierToolManager.execute st query user_id (some name) params
        (Except.ok res)).clarification_question = some (Json.str e) := by
  have hex := extract_obj_error_question t e pkvs hparse herr hq
  simp [ZapierToolManager.execute, hinit, hcl, hname, hres, hex]

/-- The spec's example text payload for the soft-failure scenario. -/
def c1Text : String := "\x7b\"error\":\"Which calendar did you mean?\"\x7d"

/-- The spec's example MCP content envelope. -/
def c1Payload : Json :=
  Json.obj [("content", Json.arr
    [Json.obj [("type", Json.str "text"), ("text", Json.str c1Text)]])]

/-- A successful underlying invocation carrying the example payload. -/
def c1Res : MCPToolResult :=
  { success := true, tool_name := "google_calendar_find_event",
    result := some c1Payload, execution_time_ms := some 42 }

/-- An initialized manager state. -/
def c1St : ZapierManagerState :=
  { initialized := true, hasClient := true, namePrefix := "zapier_" }

/-- Witness for C1: the spec's own example payload, through an initialized
manager, yields a non-success clarification request whose question contains
"Which calendar". -/
theorem c1_soft_failure_needs_clarification_witness :
    (ZapierToolManager.execute c1St "" none
        (some "zapier_google_calendar_find_event") none
        (Except.ok c1Res)).success = false ∧
    (ZapierToolManager.execute c1St "" none
        (some "zapier_google_calendar_find_event") none
        (Except.ok c1Res)).needs_clarification = some true ∧
    (ZapierToolManager.execute c1St "" none
        (some "zapier_google_calendar_find_event") none
        (Except.ok c1Res)).clarification_question
      = some (Json.str "Which calendar did you mean?") ∧
    strContains "Which calendar did you mean?" "Which calendar" = true := by
  have h := c1_soft_failure_needs_clarification c1St "" none none
    "zapier_google_calendar_find_event" c1Text
    "Which calendar did you mean?"
    [("error", Json.str "Which calendar did you mean?")] c1Res
    rfl rfl (by decide) rfl rfl (by rfl) rfl (by decide)
  exact ⟨h.1, h.2.1, h.2.2, by decide⟩

/-- C2: the safe variants never raise — whenever the strict operation
raises, `call_tool_safe` returns a failure result carrying the error's
message (with the invalid-params / rate-limited code where derivable),
`execute_action_safe` returns a failure result carrying `str(e)`, and
`ZapierToolManager.execute` (on the dispatch path) returns a failure
dictionary carrying the message (prefixed for non-MCP exceptions). -/
theorem c2_safe_variants_convert_exceptions :
    (∀ (st : ClientState) (name : String) (params : List (String × Json))
        (now : Int) (listSend sendRes : Except PyExc MCPResponse) (e : PyExc),
      (MCPClient.call_tool st name params none now listSend sendRes).2
          = Except.error e →
      ((MCPClient.call_tool_safe st name params now listSend sendRes).2.success
          = false ∧
       (MCPClient.call_tool_safe st name params now listSend sendRes).2.error
          = some (match e with
                  | PyExc.other m => "Unexpected error: " ++ m
                  | _ => e.toMessage) ∧
       (MCPClient.call_tool_safe st name params now listSend sendRes).2.error_code
          = (match e with
             | PyExc.validation _ _ => some JSONRPCErrorCode.INVALID_PARAMS
             | PyExc.rateLimit _ _ => some JSONRPCErrorCode.RATE_LIMITED
             | _ => none))) ∧
    (∀ (st : ZapierClientState) (name : String)
        (getToolRes : Except PyExc (Option ZapierTool))
        (callRes : Except PyExc MCPToolResult) (e : PyExc),
      (ZapierMCPClient.execute_action st name getToolRes callRes).2
          = Except.error e →
      ((ZapierMCPClient.execute_action_safe st name getToolRes callRes).2.success
          = false ∧
       (ZapierMCPClient.execute_action_safe st name getToolRes callRes).2.error
          = some e.toMessage)) ∧
    (∀ (st : ZapierManagerState) (query : String) (user_id : Option String)
        (name : String) (params : Option (List (String × Json))) (e : PyExc),
      st.initialized = true → st.hasClient = true → name ≠ "" →
      ((ZapierToolManager.execute st query user_id (some name) params
          (Except.error e)).success = false ∧
       (ZapierToolManager.execute st query user_id (some name) params
          (Except.error e)).error
          = some (if e.isMCPError then e.toMessage
                  else "Unexpected error: " ++ e.toMessage))) := by
  refine ⟨?_, ?_, ?_⟩
  · intro st name params now ls sr e h
    rcases hc : MCPClient.call_tool st name params none now ls sr with ⟨st2, r⟩
    rw [hc] at h
    simp at h
    subst h
    cases e <;>
      simp [MCPClient.call_tool_safe, hc, MCPToolResult.from_error,
        PyExc.toMessage]
  · intro st name gtr cr e h
    rcases hc : ZapierMCPClient.execute_action st name gtr cr with ⟨st2, r⟩
    rw [hc] at h
    simp at h
    subst h
    simp [ZapierMCPClient.execute_action_safe, hc]
  · intro st query uid name params e hinit hcl hname
    cases he : e.isMCPError <;>
      simp [ZapierToolManager.execute, hinit, hcl, hname, he]

/-- Witness for C2: concrete instances — a disconnected client's strict
call raises a connection error and the safe call converts it; a Zapier
client without a wrapped MCP client behaves likewise; an initialized
manager converts a non-MCP exception raised by the dispatch. -/
theorem c2_safe_variants_convert_exceptions_witness :
    ((MCPClient.call_tool_safe { } "gmail_send_email" [] 0
        (Except.error (PyExc.other "unused"))
        (Except.error (PyExc.other "unused"))).2.success = false ∧
     (MCPClient.call_tool_safe { } "gmail_send_email" [] 0
        (Except.error (PyExc.other "unused"))
        (Except.error (PyExc.other "unused"))).2.error
        = some "Not connected to MCP server") ∧
    ((ZapierMCPClient.execute_action_safe { } "gmail_send_email"
        (Except.ok none)
        (Except.error (PyExc.other "unused"))).2.success = false ∧
     (ZapierMCPClient.execute_action_safe { } "gmail_send_email"
        (Except.ok none)
        (Except.error (PyExc.other "unused"))).2.error
        = some "Not connected to Zapier") ∧
    ((ZapierToolManager.execute
        { initialized := true, hasClient := true, namePrefix := "zapier_" }
        "" none (some "zapier_gmail_send_email") none
        (Except.error (PyExc.other "boom"))).success = false ∧
     (ZapierToolManager.execute
        { initialized := true, hasClient := true, namePrefix := "zapier_" }
        "" none (some "zapier_gmail_send_email") none
        (Except.error (PyExc.other "boom"))).error
        = some "Unexpected error: boom") := by
  have h1 := c2_safe_variants_convert_exceptions.1 { } "gmail_send_email" [] 0
    (Except.error (PyExc.other "unused")) (Except.error (PyExc.other "unused"))
    (PyExc.connection "Not connected to MCP server") rfl
  have h2 := c2_safe_variants_convert_exceptions.2.1 { } "gmail_send_email"
    (Except.ok none) (Except.error (PyExc.other "unused"))
    (PyExc.connection "Not connected to Zapier") rfl
  have h3 := c2_safe_variants_convert_exceptions.2.2
    { initialized := true, hasClient := true, namePrefix := "zapier_" }
    "" none "zapier_gmail_send_email" none (PyExc.other "boom")
    rfl rfl (by decide)
  exact ⟨⟨h1.1, h1.2.1⟩, ⟨h2.1, h2.2⟩, ⟨h3.1, h3.2⟩⟩

/-- Key membership after a Python dict assignment: the new key joins the
existing ones. -/
theorem mem_keys_dictSet {α : Type} (m : List (String × α)) (k : String)
    (v : α) (n : String) :
    n ∈ (dictSet m k v).map Prod.fst ↔ n ∈ m.map Prod.fst ∨ n = k := by
  unfold dictSet
  split
  · rename_i hany
    have hkeys : (m.map (fun p => if p.1 == k then (k, v) else p)).map Prod.fst
        = m.map Prod.fst := by
      rw [List.map_map]
      apply List.map_congr_left
      intro p _
      by_cases hp : p.1 = k
      · simp [beq_iff_eq, hp]
      · simp [beq_iff_eq, hp]
    rw [hkeys]
    constructor
    · exact Or.inl
    · rintro (h | rfl)
      · exact h
      · rcases List.any_eq_true.mp hany with ⟨p, hmem, hpk⟩
        exact List.mem_map.mpr ⟨p, hmem, by simpa [beq_iff_eq] using hpk⟩
  · simp [List.mem_map, List.mem_append]

/-- Key membership after folding a list of tools into the cache with dict
assignment: the union of the old keys and the new tool names. -/
theorem mem_keys_foldl_dictSet (tools : List MCPTool)
    (cache : List (String × MCPTool)) (n : String) :
    n ∈ (tools.foldl (fun c t => dictSet c t.name t) cache).map Prod.fst ↔
      n ∈ cache.map Prod.fst ∨ n ∈ tools.map MCPTool.name := by
  induction tools generalizing cache with
  | nil => simp
  | cons t ts ih =>
      simp only [List.foldl_cons, List.map_cons, List.mem_cons]
      rw [ih, mem_keys_dictSet]
      tauto

/-- A pre-existing tool cached under a name absent from the discovery
response. -/
def c3OldTool : MCPTool := { name := "old", description := "" }

/-- A connected client whose cache already holds `old`. -/
def c3St : ClientState :=
  { connected := true, transport_connected := true,
    tools_cache := [("old", c3OldTool)] }

/-- A successful discovery response listing only the tool `new`. -/
def c3Resp : MCPResponse :=
  { is_success := true,
    result := some (Json.obj [("tools", Json.arr
      [Json.obj [("name", Json.str "new")]])]) }

/-- Counterexample to C3: after a forced refresh whose discovery response
contains only `new`, the cached tool names still include `old`, which is
absent from the response — the cache is merged into, not replaced
wholesale. -/
theorem c3_counterexample :
    "old" ∈ ((MCPClient.list_tools c3St 1000 true
        (Except.ok c3Resp)).1.tools_cache.map Prod.fst) ∧
    "old" ∉ ((parseToolsData c3Resp.result).map MCPTool.name) := by
  constructor
  · decide
  · decide

/-- C3 amended: whenever `list_tools` performs a discovery call (refresh
forced or cache invalid) and the response succeeds, the cache is updated by
insertion — afterwards the set of cached tool names is the union of the
previously cached names and the names in the discovery response (entries
absent from the response are retained) — and the cache timestamp is set to
the time of the refresh. -/
theorem c3_amended_cache_merge (st : ClientState) (now : Int) (force : Bool)
    (resp : MCPResponse)
    (hconn : MCPClient.is_connected st = true)
    (hbypass : force = true ∨ MCPClient.is_cache_valid st now = false)
    (hok : resp.is_success = true) :
    (∀ n, n ∈ ((MCPClient.list_tools st now force
          (Except.ok resp)).1.tools_cache.map Prod.fst) ↔
        (n ∈ st.tools_cache.map Prod.fst ∨
         n ∈ (parseToolsData resp.result).map MCPTool.name)) ∧
    (MCPClient.list_tools st now force
        (Except.ok resp)).1.tools_cache_time = some now := by
  have hstep : (MCPClient.list_tools st now force (Except.ok resp)).1 =
      { st with
        tools_cache := (parseToolsData resp.result).foldl
          (fun c t => dictSet c t.name t) st.tools_cache,
        tools_cache_time := some now } := by
    unfold MCPClient.list_tools
    rcases hbypass with hf | hcv
    · subst hf; simp [hconn, hok]
    · simp [hconn, hok, hcv]
  rw [hstep]
  exact ⟨fun n => mem_keys_foldl_dictSet _ _ n, rfl⟩

/-- Witness for the amended C3, at the concrete refresh scenario. -/
theorem c3_amended_cache_merge_witness :
    ("old" ∈ ((MCPClient.list_tools c3St 1000 true
        (Except.ok c3Resp)).1.tools_cache.map Prod.fst) ↔
      ("old" ∈ c3St.tools_cache.map Prod.fst ∨
       "old" ∈ (parseToolsData c3Resp.result).map MCPTool.name)) ∧
    (MCPClient.list_tools c3St 1000 true
        (Except.ok c3Resp)).1.tools_cache_time = some 1000 := by
  have h := c3_amended_cache_merge c3St 1000 true c3Resp rfl (Or.inl rfl) rfl
  exact ⟨h.1 "old", h.2⟩

/-- The required-parameter loop produces exactly one message per offending
required parameter, in schema order. -/
theorem validateRequired_eq_filterMap (params : List (String × Json))
    (l : List String) :
    validateRequired params l = l.filterMap (fun r =>
      if ¬ hasKey params r then some ("Missing required parameter: " ++ r)
      else if isNullOpt (pyGet params r) then
        some ("Required parameter cannot be null: " ++ r)
      else none) := by
  induction l with
  | nil => rfl
  | cons r rs ih =>
      by_cases hk : hasKey params r = true
      · by_cases hn : isNullOpt (pyGet params r) = true
        · simp [validateRequired, hk, hn, ih]
        · simp [validateRequired, hk, hn, ih]
      · simp [validateRequired, hk, ih]

/-- `get_tool` on a non-empty cache is a pure lookup. -/
theorem get_tool_cached (st : ClientState) (name : String) (now : Int)
    (ls : Except PyExc MCPResponse) (h : st.tools_cache.isEmpty = false) :
    MCPClient.get_tool st name now ls
      = (st, Except.ok (dictGet st.tools_cache name)) := by
  unfold MCPClient.get_tool
  simp [h]

/-- A tool definition requiring `to` and `subject`. -/
def c4Tool : MCPTool :=
  { name := "gmail_send_email", description := "",
    input_schema := Json.obj
      [("properties", Json.obj [("to", Json.obj []), ("subject", Json.obj [])]),
       ("required", Json.arr [Json.str "to", Json.str "subject"])] }

/-- A connected client knowing that tool. -/
def c4St : ClientState :=
  { connected := true, transport_connected := true,
    tools_cache := [("gmail_send_email", c4Tool)] }

/-- Counterexample to C4: with the schema requiring `{to, subject}` and the
parameters `{subject: "hi"}`, the raised validation error's field list is
`["Missing required parameter: to"]` keyed under the tool name — not the
bare field list `["to"]` the claim states. -/
theorem c4_counterexample :
    (MCPClient.call_tool c4St "gmail_send_email" [("subject", Json.str "hi")]
        none 0 (Except.error (PyExc.other "unused"))
        (Except.error (PyExc.other "unused"))).2
      = Except.error (PyExc.validation
          "Invalid parameters for gmail_send_email: Missing required parameter: to"
          [("gmail_send_email", ["Missing required parameter: to"])]) ∧
    ["Missing required parameter: to"] ≠ ["to"] := by
  constructor
  · rfl
  · decide

/-- C4 amended: with validation enabled and the tool definition cached, a
call whose required parameters are missing or null raises a validation
error before any request is sent (the outcome is the same for every
transport response); the error's field map is keyed by the tool name and
lists one message per offending required parameter, in schema order
("Missing required parameter: p" / "Required parameter cannot be null: p");
when no required parameter is offending, no validation error is raised
(unknown parameters never cause rejection). -/
theorem c4_amended_validation (st : ClientState) (name : String)
    (params : List (String × Json)) (tool : MCPTool) (now : Int)
    (hconn : MCPClient.is_connected st = true)
    (hval : st.validate_params = true)
    (hnonempty : st.tools_cache.isEmpty = false)
    (hlookup : dictGet st.tools_cache name = some tool) :
    (tool.validate_params params ≠ [] →
      ∀ listSend sendRes,
        (MCPClient.call_tool st name params none now listSend sendRes).2
          = Except.error (PyExc.validation
              ("Invalid parameters for " ++ name ++ ": " ++
                String.intercalate "; " (tool.validate_params params))
              [(name, tool.validate_params params)])) ∧
    (tool.validate_params params
      = tool.required_params.filterMap (fun r =>
          if ¬ hasKey params r then some ("Missing required parameter: " ++ r)
          else if isNullOpt (pyGet params r) then
            some ("Required parameter cannot be null: " ++ r)
          else none)) ∧
    (tool.validate_params params = [] →
      ∀ listSend resp m fe,
        (MCPClient.call_tool st name params none now listSend
            (Except.ok resp)).2
          ≠ Except.error (PyExc.validation m fe)) := by
  refine ⟨?_, ?_, ?_⟩
  · intro hne ls sr
    simp [MCPClient.call_tool, hconn, get_tool_cached, hnonempty, hlookup,
      hval, hne]
  · exact validateRequired_eq_filterMap params tool.required_params
  · intro hz ls resp m fe
    simp only [MCPClient.call_tool, hconn, Bool.not_true, if_false,
      Bool.false_eq_true, ite_false]
    simp [get_tool_cached, hnonempty, hlookup, hval, hz]
    split
    · simp
    · split
      · simp
      · split
        · simp
        · simp

/-- Witness for the amended C4: the `{to, subject}` schema with params
`{subject: "hi"}` raises the validation error with the message list, the
message list matches the offending-parameter characterisation, and the
fully-supplied call (with an unknown-parameter-free schema match) raises no
validation error. -/
theorem c4_amended_validation_witness :
    ((MCPClient.call_tool c4St "gmail_send_email" [("subject", Json.str "hi")]
        none 0 (Except.error (PyExc.other "unused"))
        (Except.error (PyExc.other "unused"))).2
      = Except.error (PyExc.validation
          ("Invalid parameters for " ++ "gmail_send_email" ++ ": " ++
            String.intercalate "; "
              (c4Tool.validate_params [("subject", Json.str "hi")]))
          [("gmail_send_email",
            c4Tool.validate_params [("subject", Json.str "hi")])])) ∧
    (c4Tool.validate_params [("subject", Json.str "hi")]
      = c4Tool.required_params.filterMap (fun r =>
          if ¬ hasKey [("subject", Json.str "hi")] r then
            some ("Missing required parameter: " ++ r)
          else if isNullOpt (pyGet [("subject", Json.str "hi")] r) then
            some ("Required parameter cannot be null: " ++ r)
          else none)) ∧
    ((MCPClient.call_tool c4St "gmail_send_email"
        [("to", Json.str "x"), ("subject", Json.str "hi")]
        none 0 (Except.error (PyExc.other "unused"))
        (Except.ok { is_success := true })).2
      ≠ Except.error (PyExc.validation "m" [])) := by
  have h1 := c4_amended_validation c4St "gmail_send_email"
    [("subject", Json.str "hi")] c4Tool 0 rfl rfl rfl rfl
  have h2 := c4_amended_validation c4St "gmail_send_email"
    [("to", Json.str "x"), ("subject", Json.str "hi")] c4Tool 0 rfl rfl rfl rfl
  exact ⟨h1.1 (by decide) (Except.error (PyExc.other "unused"))
          (Except.error (PyExc.other "unused")),
         h1.2.1,
         h2.2.2 (by decide) (Except.error (PyExc.other "unused"))
           { is_success := true } "m" []⟩

/-- Credentials that expire at time 5. -/
def c5Creds : MCPCredentials :=
  { server_url := "https://mcp.zapier.com/api/v1/abc", expires_at := some 5 }

/-- A security manager holding those credentials. -/
def c5St : SecurityState := { credentials_cache := [("zapier", c5Creds)] }

/-- Counterexample to C5: at time 10 the cached credentials are present and
expired, yet `get_zapier_credentials` returns `None` without raising — the
configured-check already fails for expired credentials, so the
authentication-error branch is never reached. -/
theorem c5_counterexample :
    MCPSecurityManager.get_zapier_credentials c5St 10 = Except.ok none ∧
    dictGet c5St.credentials_cache "zapier" = some c5Creds ∧
    c5Creds.is_expired 10 = true := by
  refine ⟨rfl, rfl, by decide⟩

/-- C5 amended: `get_zapier_credentials` returns the stored credentials
when they are configured (present, URL non-empty, not expired) and `None`
when no credentials are configured; credentials that are present but
expired are treated as unconfigured and yield `None` — the
authentication-error raise is unreachable when both checks read the same
clock. -/
theorem c5_amended_get_credentials (st : SecurityState) (now : Int)
    (creds : MCPCredentials) :
    (dictGet st.credentials_cache "zapier" = some creds →
      creds.is_expired now = true →
      MCPSecurityManager.get_zapier_credentials st now = Except.ok none) ∧
    (dictGet st.credentials_cache "zapier" = some creds →
      creds.is_valid now = true →
      MCPSecurityManager.get_zapier_credentials st now
        = Except.ok (some creds)) ∧
    (dictGet st.credentials_cache "zapier" = none →
      MCPSecurityManager.get_zapier_credentials st now = Except.ok none) := by
  refine ⟨?_, ?_, ?_⟩
  · intro hl hexp
    have hconf : MCPSecurityManager.is_zapier_configured st now = false := by
      simp [MCPSecurityManager.is_zapier_configured, hl,
        MCPCredentials.is_valid, hexp]
    simp [MCPSecurityManager.get_zapier_credentials, hconf]
  · intro hl hv
    have hexp : creds.is_expired now = false := by
      cases he : creds.is_expired now
      · rfl
      · exfalso
        simp [MCPCredentials.is_valid, he] at hv
    have hconf : MCPSecurityManager.is_zapier_configured st now = true := by
      simp [MCPSecurityManager.is_zapier_configured, hl, hv]
    simp [MCPSecurityManager.get_zapier_credentials, hconf, hl, hexp]
  · intro hl
    have hconf : MCPSecurityManager.is_zapier_configured st now = false := by
      simp [MCPSecurityManager.is_zapier_configured, hl]
    simp [MCPSecurityManager.get_zapier_credentials, hconf]

/-- Witness for the amended C5: expired at 10 yields `None`, valid at 3
yields the credentials, an empty cache yields `None`. -/
theorem c5_amended_get_credentials_witness :
    MCPSecurityManager.get_zapier_credentials c5St 10 = Except.ok none ∧
    MCPSecurityManager.get_zapier_credentials c5St 3
      = Except.ok (some c5Creds) ∧
    MCPSecurityManager.get_zapier_credentials { } 0 = Except.ok none := by
  exact ⟨(c5_amended_get_credentials c5St 10 c5Creds).1 rfl (by decide),
         (c5_amended_get_credentials c5St 3 c5Creds).2.1 rfl (by decide),
         (c5_amended_get_credentials { } 0 c5Creds).2.2 rfl⟩

/-- Python dict membership agrees with key membership. -/
theorem hasKey_iff_mem_keys (kvs : List (String × Json)) (k : String) :
    hasKey kvs k = true ↔ k ∈ kvs.map Prod.fst := by
  simp [hasKey, List.any_eq_true, List.mem_map, beq_iff_eq]

/-- `d.get(k)` is populated exactly when `k in d`. -/
theorem pyGet_isSome_eq_hasKey (kvs : List (String × Json)) (k : String) :
    (pyGet kvs k).isSome = hasKey kvs k := by
  induction kvs with
  | nil => rfl
  | cons p ps ih =>
      cases h : (p.1 == k)
      · simpa [pyGet, hasKey, List.find?, h] using ih
      · simp [pyGet, hasKey, List.find?, h]

/-- An absent key looks up to `None`. -/
theorem pyGet_eq_none_of_hasKey_false (kvs : List (String × Json))
    (k : String) (h : hasKey kvs k = false) : pyGet kvs k = none := by
  have := pyGet_isSome_eq_hasKey kvs k
  rw [h] at this
  exact Option.not_isSome_iff_eq_none.mp (by simp [this])

/-- A populated lookup means the key is present. -/
theorem hasKey_true_of_pyGet_some (kvs : List (String × Json)) (k : String)
    (v : Json) (h : pyGet kvs k = some v) : hasKey kvs k = true := by
  have := pyGet_isSome_eq_hasKey kvs k
  rw [h] at this
  simpa using this.symm

/-- A schema whose `required` list names a parameter (`b`) that is not
among its declared `properties` (`a`). -/
def c6Tool : MCPTool :=
  { name := "t", description := "",
    input_schema := Json.obj
      [("properties", Json.obj [("a", Json.obj [])]),
       ("required", Json.arr [Json.str "b"])] }

/-- Counterexample to C6: `required_params` is read straight from the
schema's `required` list without intersecting it with `properties`, so it
is not a subset of `all_params` for every schema. -/
theorem c6_counterexample :
    "b" ∈ c6Tool.required_params ∧ "b" ∉ c6Tool.all_params := by
  constructor
  · decide
  · decide

/-- C6 amended: for every tool, `optional_params` equals `all_params` minus
`required_params` (as a set); `required_params ⊆ all_params` holds whenever
every name in the schema's `required` list is declared among its
`properties` (it can fail otherwise, since `required` is taken verbatim
from the schema). -/
theorem c6_amended_params (t : MCPTool) :
    (∀ x, x ∈ t.optional_params ↔
        (x ∈ t.all_params ∧ x ∉ t.required_params)) ∧
    (∀ kvs props req, t.input_schema = Json.obj kvs →
      pyGet kvs "properties" = some (Json.obj props) →
      pyGet kvs "required" = some (Json.arr req) →
      (∀ s ∈ jsonStrings req, hasKey props s = true) →
      ∀ x ∈ t.required_params, x ∈ t.all_params) := by
  constructor
  · intro x
    obtain ⟨nm, ds, schema, pv, ct⟩ := t
    cases schema with
    | obj kvs =>
        by_cases hp : hasKey kvs "properties" = true
        · cases hpg : pyGet kvs "properties" with
          | none =>
              simp [MCPTool.optional_params, MCPTool.all_params, hp, hpg]
          | some v =>
              cases v <;>
                simp [MCPTool.optional_params, MCPTool.all_params, hp, hpg,
                  List.mem_filter]
        · have hnone := pyGet_eq_none_of_hasKey_false kvs "properties"
            (by simpa using hp)
          simp [MCPTool.optional_params, MCPTool.all_params, hp, hnone]
    | null => simp [MCPTool.optional_params, MCPTool.all_params]
    | bool b => simp [MCPTool.optional_params, MCPTool.all_params]
    | num l => simp [MCPTool.optional_params, MCPTool.all_params]
    | str s => simp [MCPTool.optional_params, MCPTool.all_params]
    | arr xs => simp [MCPTool.optional_params, MCPTool.all_params]
  · intro kvs props req hschema hprops hreq hwf x hx
    have hhk : hasKey kvs "properties" = true :=
      hasKey_true_of_pyGet_some kvs "properties" (Json.obj props) hprops
    have hr : t.required_params = jsonStrings req := by
      simp [MCPTool.required_params, hschema, hhk, hreq]
    have ha : t.all_params = props.map Prod.fst := by
      simp [MCPTool.all_params, hschema, hprops]
    rw [hr] at hx
    rw [ha]
    exact (hasKey_iff_mem_keys props x).mp (hwf x hx)

/-- A well-formed schema: `required ⊆ properties`. -/
def c6WfTool : MCPTool :=
  { name := "t2", description := "",
    input_schema := Json.obj
      [("properties", Json.obj [("a", Json.obj []), ("b", Json.obj [])]),
       ("required", Json.arr [Json.str "a"])] }

/-- Witness for the amended C6 at a concrete well-formed schema. -/
theorem c6_amended_params_witness :
    ("b" ∈ c6WfTool.optional_params ↔
      ("b" ∈ c6WfTool.all_params ∧ "b" ∉ c6WfTool.required_params)) ∧
    "a" ∈ c6WfTool.all_params := by
  have h := c6_amended_params c6WfTool
  exact ⟨h.1 "b",
         h.2 [("properties", Json.obj [("a", Json.obj []), ("b", Json.obj [])]),
              ("required", Json.arr [Json.str "a"])]
           [("a", Json.obj []), ("b", Json.obj [])] [Json.str "a"]
           rfl rfl rfl (by decide) "a" (by decide)⟩

/-- C7: the round-trip `MCPTool.from_dict (tool.to_dict())` preserves the
tool's name, description, required parameters and optional parameters
(`to_dict` serialises the schema under `input_schema`, which `from_dict`
reads back after finding no `inputSchema` key). -/
theorem c7_tool_roundtrip (t : MCPTool) :
    (MCPTool.from_dict (MCPTool.to_dict t)).name = t.name ∧
    (MCPTool.from_dict (MCPTool.to_dict t)).description = t.description ∧
    (MCPTool.from_dict (MCPTool.to_dict t)).required_params
      = t.required_params ∧
    (MCPTool.from_dict (MCPTool.to_dict t)).optional_params
      = t.optional_params := by
  exact ⟨rfl, rfl, rfl, rfl⟩

/-- The code's sensitive-key test (substring scan over the pattern list)
agrees with the spec's enumeration. -/
theorem sensKey_eq_spec (key : String) :
    (sensitive_patterns.any fun p => strContains (pyLower key) p)
      = specSensitiveKey key := by
  rw [Bool.eq_iff_iff]
  simp [sensitive_patterns, specSensitiveKey, List.any_eq_true]

/-- `_mask_value` agrees with the spec's masking walk, by induction on the
size of the JSON value. -/
theorem maskValue_eq_spec : ∀ (fuel : Nat) (key : String) (v : Json),
    sizeOf v ≤ fuel → maskValue key v = specMaskValue key v := by
  intro fuel
  induction fuel with
  | zero =>
      intro key v h
      exfalso
      cases v <;> simp at h
  | succ n ih =>
      intro key v h
      cases v with
      | null => simp [maskValue, specMaskValue]
      | bool b => simp [maskValue, specMaskValue]
      | num l => simp [maskValue, specMaskValue]
      | str s =>
          by_cases hk : specSensitiveKey key = true <;>
            by_cases h8 : 8 < s.length <;>
              simp [maskValue, specMaskValue, sensKey_eq_spec,
                specMaskString, hk, h8]
      | arr xs =>
          simp only [maskValue, specMaskValue, Json.arr.injEq]
          apply List.map_congr_left
          rintro ⟨x, hx⟩ _
          have h1 := List.sizeOf_lt_of_mem hx
          have h2 : sizeOf (Json.arr xs) = 1 + sizeOf xs := by simp
          exact ih key x (by omega)
      | obj kvs =>
          simp only [maskValue, specMaskValue, Json.obj.injEq]
          apply List.map_congr_left
          rintro ⟨⟨k2, v2⟩, hx⟩ _
          have h1 := List.sizeOf_lt_of_mem hx
          have h2 : sizeOf (Json.obj kvs) = 1 + sizeOf kvs := by simp
          have h3 : sizeOf (k2, v2) = 1 + sizeOf k2 + sizeOf v2 := by simp
          exact congrArg (Prod.mk k2) (ih k2 v2 (by omega))

/-- C8: `mask_sensitive_data` performs exactly the walk the spec describes
— recursively through dicts and lists, replacing exactly the string values
under sensitive key names (head/tail mask over length 8, fixed placeholder
otherwise) and leaving everything else unchanged; in particular the spec's
two examples hold. -/
theorem c8_mask_sensitive_data :
    (∀ data, MCPSecurityManager.mask_sensitive_data data
        = specMaskData data) ∧
    MCPSecurityManager.mask_sensitive_data [("api_key", Json.str "abcdefgh1234")]
      = [("api_key", Json.str "abcd...1234")] ∧
    MCPSecurityManager.mask_sensitive_data [("token", Json.str "short")]
      = [("token", Json.str "****")] := by
  have hmv : ∀ key v, maskValue key v = specMaskValue key v :=
    fun key v => maskValue_eq_spec (sizeOf v) key v (le_refl _)
  refine ⟨?_, ?_, ?_⟩
  · intro data
    unfold MCPSecurityManager.mask_sensitive_data specMaskData
    apply List.map_congr_left
    intro p _
    rw [hmv]
  · simp only [MCPSecurityManager.mask_sensitive_data, List.map]
    rw [maskValue]
    rw [if_pos (by decide), if_pos (by decide)]
    rfl
  · simp only [MCPSecurityManager.mask_sensitive_data, List.map]
    rw [maskValue]
    rw [if_pos (by decide), if_neg (by decide)]

/-- `list_tools` never touches the call/error counters. -/
theorem list_tools_counters (st : ClientState) (now : Int) (fr : Bool)
    (sr : Except PyExc MCPResponse) :
    ((MCPClient.list_tools st now fr sr).1).call_count = st.call_count ∧
    ((MCPClient.list_tools st now fr sr).1).error_count = st.error_count := by
  unfold MCPClient.list_tools
  split
  · exact ⟨rfl, rfl⟩
  · split
    · exact ⟨rfl, rfl⟩
    · split
      · exact ⟨rfl, rfl⟩
      · split
        · exact ⟨rfl, rfl⟩
        · exact ⟨rfl, rfl⟩

/-- `get_tool` never touches the call/error counters. -/
theorem get_tool_counters (st : ClientState) (n : String) (now : Int)
    (ls : Except PyExc MCPResponse) :
    ((MCPClient.get_tool st n now ls).1).call_count = st.call_count ∧
    ((MCPClient.get_tool st n now ls).1).error_count = st.error_count := by
  unfold MCPClient.get_tool
  split
  · split
    · rename_i st2 e heq
      have h := list_tools_counters st now false ls
      rw [heq] at h
      exact h
    · rename_i st2 ts heq
      have h := list_tools_counters st now false ls
      rw [heq] at h
      exact h
  · exact ⟨rfl, rfl⟩

/-- `call_tool` only ever increments the counters. -/
theorem call_tool_counters (st : ClientState) (tn : String)
    (params : List (String × Json)) (v : Option Bool) (now : Int)
    (ls sr : Except PyExc MCPResponse) :
    st.call_count ≤ ((MCPClient.call_tool st tn params v now ls sr).1).call_count ∧
    st.error_count ≤ ((MCPClient.call_tool st tn params v now ls sr).1).error_count := by
  simp only [MCPClient.call_tool]
  split
  · exact ⟨le_refl _, le_refl _⟩
  · split
    case _ st' e heq =>
      have h := get_tool_counters
        { st with call_count := st.call_count + 1 } tn now ls
      rw [heq] at h
      simp at h
      refine ⟨?_, ?_⟩ <;> (dsimp only; omega)
    case _ st' topt heq =>
      have h := get_tool_counters
        { st with call_count := st.call_count + 1 } tn now ls
      rw [heq] at h
      simp at h
      repeat' split
      all_goals refine ⟨?_, ?_⟩
      all_goals first
        | omega
        | (dsimp only; omega)

/-- `list_tools` leaves the call counter unchanged (projection form). -/
theorem list_tools_call_count (st : ClientState) (now : Int) (fr : Bool)
    (sr : Except PyExc MCPResponse) :
    ((MCPClient.list_tools st now fr sr).1).call_count = st.call_count :=
  (list_tools_counters st now fr sr).1

/-- `list_tools` leaves the error counter unchanged (projection form). -/
theorem list_tools_error_count (st : ClientState) (now : Int) (fr : Bool)
    (sr : Except PyExc MCPResponse) :
    ((MCPClient.list_tools st now fr sr).1).error_count = st.error_count :=
  (list_tools_counters st now fr sr).2

/-- `connect` never touches the call/error counters (it only flips flags,
stores server info, and possibly pre-fetches the tool cache). -/
theorem connect_counters (st : ClientState) (tOk : Bool)
    (ir ps : Except PyExc MCPResponse) (now : Int) :
    ((MCPClient.connect st tOk ir ps now).1).call_count = st.call_count ∧
    ((MCPClient.connect st tOk ir ps now).1).error_count = st.error_count := by
  simp only [MCPClient.connect]
  split
  · exact ⟨rfl, rfl⟩
  · refine ⟨?_, ?_⟩ <;> (repeat' split) <;>
      simp [list_tools_call_count, list_tools_error_count]

/-- C9: `disconnect` clears the tool cache, the cache timestamp and the
stored server info, and drops the connected flag, while leaving the call
and error counters unchanged; no client operation ever decreases the
counters (`call_tool` only increments them, `list_tools`, `connect` and
`disconnect` leave them unchanged — in particular nothing resets them
before the next connect completes, and they are monotonically
non-decreasing within a connection's lifetime). -/
theorem c9_disconnect_frame_counters_monotone :
    (∀ st : ClientState,
      (MCPClient.disconnect st).tools_cache = [] ∧
      (MCPClient.disconnect st).tools_cache_time = none ∧
      (MCPClient.disconnect st).server_info = none ∧
      (MCPClient.disconnect st).connected = false ∧
      (MCPClient.disconnect st).call_count = st.call_count ∧
      (MCPClient.disconnect st).error_count = st.error_count) ∧
    (∀ (st : ClientState) (tn : String) (params : List (String × Json))
        (v : Option Bool) (now : Int) (ls sr : Except PyExc MCPResponse),
      st.call_count
          ≤ ((MCPClient.call_tool st tn params v now ls sr).1).call_count ∧
      st.error_count
          ≤ ((MCPClient.call_tool st tn params v now ls sr).1).error_count) ∧
    (∀ (st : ClientState) (now : Int) (fr : Bool)
        (sr : Except PyExc MCPResponse),
      ((MCPClient.list_tools st now fr sr).1).call_count = st.call_count ∧
      ((MCPClient.list_tools st now fr sr).1).error_count = st.error_count) ∧
    (∀ (st : ClientState) (tOk : Bool) (ir ps : Except PyExc MCPResponse)
        (now : Int),
      ((MCPClient.connect st tOk ir ps now).1).call_count = st.call_count ∧
      ((MCPClient.connect st tOk ir ps now).1).error_count = st.error_count) := by
  refine ⟨?_, ?_, ?_, ?_⟩
  · intro st
    exact ⟨rfl, rfl, rfl, rfl, rfl, rfl⟩
  · intro st tn params v now ls sr
    exact call_tool_counters st tn params v now ls sr
  · intro st now fr sr
    exact list_tools_counters st now fr sr
  · intro st tOk ir ps now
    exact connect_counters st tOk ir ps now

/-- C10: `ZapierToolManager.execute` invoked before a successful
initialization (or without an underlying client), or with `tool_name`
missing (or empty), returns a failure dictionary — `success = false`,
provider `"zapier_mcp"`, a descriptive error — without raising and without
dispatching any tool invocation (the outcome is the same for every possible
dispatch outcome `callRes`). -/
theorem c10_execute_guards :
    (∀ (st : ZapierManagerState) (query : String) (uid : Option String)
        (tool_name : Option String)
        (params : Option (List (String × Json)))
        (callRes : Except PyExc MCPToolResult),
      (st.initialized = false ∨ st.hasClient = false) →
      ZapierToolManager.execute st query uid tool_name params callRes
        = { success := false,
            error := some "ZapierToolManager not initialized",
            tool := tool_name, provider := "zapier_mcp" }) ∧
    (∀ (st : ZapierManagerState) (query : String) (uid : Option String)
        (params : Option (List (String × Json)))
        (callRes : Except PyExc MCPToolResult),
      st.initialized = true → st.hasClient = true →
      ZapierToolManager.execute st query uid none params callRes
        = { success := false, error := some "No tool_name provided",
            tool := none, provider := "zapier_mcp" }) ∧
    (∀ (st : ZapierManagerState) (query : String) (uid : Option String)
        (params : Option (List (String × Json)))
        (callRes : Except PyExc MCPToolResult),
      st.initialized = true → st.hasClient = true →
      ZapierToolManager.execute st query uid (some "") params callRes
        = { success := false, error := some "No tool_name provided",
            tool := none, provider := "zapier_mcp" }) := by
  refine ⟨?_, ?_, ?_⟩
  · intro st query uid tool_name params callRes h
    rcases h with h | h <;> simp [ZapierToolManager.execute, h]
  · intro st query uid params callRes h1 h2
    simp [ZapierToolManager.execute, h1, h2]
  · intro st query uid params callRes h1 h2
    simp [ZapierToolManager.execute, h1, h2]

/-- Witness for C10: an uninitialized manager, and an initialized manager
with a missing / empty tool name. -/
theorem c10_execute_guards_witness :
    ZapierToolManager.execute { } "q" none (some "zapier_gmail_send_email")
        none (Except.error (PyExc.other "unused"))
      = { success := false, error := some "ZapierToolManager not initialized",
          tool := some "zapier_gmail_send_email", provider := "zapier_mcp" } ∧
    ZapierToolManager.execute
        { initialized := true, hasClient := true, namePrefix := "zapier_" }
        "q" none none none (Except.error (PyExc.other "unused"))
      = { success := false, error := some "No tool_name provided",
          tool := none, provider := "zapier_mcp" } ∧
    ZapierToolManager.execute
        { initialized := true, hasClient := true, namePrefix := "zapier_" }
        "q" none (some "") none (Except.error (PyExc.other "unused"))
      = { success := false, error := some "No tool_name provided",
          tool := none, provider := "zapier_mcp" } := by
  exact ⟨c10_execute_guards.1 { } "q" none (some "zapier_gmail_send_email")
          none (Except.error (PyExc.other "unused")) (Or.inl rfl),
         c10_execute_guards.2.1
          { initialized := true, hasClient := true, namePrefix := "zapier_" }
          "q" none none (Except.error (PyExc.other "unused")) rfl rfl,
         c10_execute_guards.2.2
          { initialized := true, hasClient := true, namePrefix := "zapier_" }
          "q" none none (Except.error (PyExc.other "unused")) rfl rfl⟩
